import Mathlib

/-!
Shallow embedding of `sale.py` from the `trytond-ebay` module: the `Sale`
model extension that validates eBay order-id uniqueness and imports eBay
orders as ERP sales.  External collaborators (ERP pool models, the eBay
trading API, party/product import) are modelled as components of an
abstract environment; the ambient ERP transaction is modelled by the
`Except` monad (an error aborts the import and leaves no state behind),
and the persisted state is an explicit `DB` value threaded through the
translated classmethods.
-/

deriving instance DecidableEq for Except

attribute [local semireducible] Rat.add Rat.mul Rat.inv Rat.sub Rat.ofScientific

namespace EbaySale

/-- Calendar date, the result of `dateutil.parser.parse(...).date()`. -/
structure Date where
  year : Nat
  month : Nat
  day : Nat
deriving DecidableEq, Repr

/-- Numeric value of a digit list, most significant first. -/
def digitsToNat (l : List Char) : Nat :=
  l.foldl (fun a c => a * 10 + (c.toNat - 48)) 0

/-- Split a character list at every separator character, keeping empty
chunks (the behavior of splitting a string at a separator predicate). -/
def splitChars (p : Char → Bool) : List Char → List (List Char)
  | [] => [[]]
  | c :: rest =>
    match splitChars p rest with
    | [] => [[c]]
    | x :: xs => if p c then [] :: x :: xs else (c :: x) :: xs

/-- Strip leading and trailing whitespace from a character list. -/
def trimChars (l : List Char) : List Char :=
  ((l.dropWhile Char.isWhitespace).reverse.dropWhile Char.isWhitespace).reverse

/-- Core of exact decimal parsing: digits with at most one dot, as in
`decimal.Decimal("12.50")`.  The value is an exact rational. -/
def parseDecimalCore (l : List Char) : Option ℚ :=
  match l.takeWhile (fun c => decide (c ≠ '.')), l.dropWhile (fun c => decide (c ≠ '.')) with
  | intPart, [] =>
    if !intPart.isEmpty && intPart.all Char.isDigit then
      some ((digitsToNat intPart : ℚ))
    else none
  | intPart, _ :: fracPart =>
    if (!intPart.isEmpty || !fracPart.isEmpty) && intPart.all Char.isDigit
        && fracPart.all Char.isDigit then
      some ((digitsToNat intPart : ℚ) + (digitsToNat fracPart : ℚ) / (10 : ℚ) ^ fracPart.length)
    else none

/-- Models Python `decimal.Decimal(s)` on string input: exact decimal parse,
`none` when the string is not a valid signed decimal numeral. -/
def parseDecimal (s : String) : Option ℚ :=
  match trimChars s.toList with
  | [] => none
  | '-' :: rest => (parseDecimalCore rest).map (fun q => -q)
  | '+' :: rest => parseDecimalCore rest
  | l => parseDecimalCore l

/-- All-digit character list to `Nat`, `none` when empty or non-numeric. -/
def parseNatDigits (l : List Char) : Option Nat :=
  if !l.isEmpty && l.all Char.isDigit then some (digitsToNat l) else none

/-- Models `dateutil.parser.parse(tok).date()` on the ISO `YYYY-MM-DD`
date tokens that the eBay `CreatedTime` field yields after splitting off
the time portion. -/
def parseDate (l : List Char) : Option Date :=
  match splitChars (fun c => decide (c = '-')) l with
  | [y, m, d] =>
    match parseNatDigits y, parseNatDigits m, parseNatDigits d with
    | some yn, some mn, some dn =>
      if 1 ≤ mn ∧ mn ≤ 12 ∧ 1 ≤ dn ∧ dn ≤ 31 then some ⟨yn, mn, dn⟩ else none
    | _, _, _ => none
  | _ => none

/-- Python `s.split()[0]`: split on whitespace discarding empty chunks and
take the first token; `none` models the `IndexError` on an all-whitespace
string. -/
def firstToken (s : String) : Option (List Char) :=
  ((splitChars Char.isWhitespace s.toList).filter (fun t => !t.isEmpty)).head?

/-- Errors surfaced by the translated classmethods (framework exceptions). -/
inductive ErpError where
  /-- `raise_user_error` with a formatted message. -/
  | userError (msg : String)
  /-- `x, = search(...)` tuple-unpacking failure (zero or several results). -/
  | unpackError
  /-- Python `IndexError` (indexing an empty list). -/
  | indexError
  /-- `decimal.Decimal` conversion failure. -/
  | decimalError
  /-- `dateutil` date-parsing failure. -/
  | dateError
  /-- `validate_ebay_channel` rejected the current channel. -/
  | channelError
deriving DecidableEq, Repr

/-- `sale_date` assembly from `order_data['CreatedTime']`
(`dateutil.parser.parse(order_data['CreatedTime'].split()[0]).date()`). -/
def parseSaleDate (s : String) : Except ErpError Date :=
  match firstToken s with
  | none => Except.error ErpError.indexError
  | some tok =>
    match parseDate tok with
    | some d => Except.ok d
    | none => Except.error ErpError.dateError

/-- `x, = lst`: Python tuple unpacking of a search result, which fails
unless the list has exactly one element. -/
def unpackOne {α : Type} (l : List α) : Except ErpError α :=
  match l with
  | [x] => Except.ok x
  | _ => Except.error ErpError.unpackError

/-- A `currency.currency` record (external master data). -/
structure CurrencyRec where
  id : Nat
  code : String
deriving DecidableEq, Repr

/-- A `product.uom` record (external master data). -/
structure UomRec where
  id : Nat
  name : String
deriving DecidableEq, Repr

/-- A `sale.channel` record (only its id is read by this module). -/
structure ChannelRec where
  id : Nat
deriving DecidableEq, Repr

/-- The `ShippingAddress` mapping of the order data (consumed as a whole
by the party/address collaborators; only `Phone` is read directly here). -/
structure AddressData where
  phone : String
deriving DecidableEq, Repr

/-- A currency-tagged amount such as `order_data['Total']`: a decimal
numeral string plus the `_currencyID` attribute. -/
structure MoneyData where
  value : String
  currencyID : String
deriving DecidableEq, Repr

/-- The `Item` sub-mapping of a transaction. -/
structure ItemData where
  itemID : String
  title : String
deriving DecidableEq, Repr

/-- One entry of `order_data['TransactionArray']['Transaction']`. -/
structure TransactionData where
  item : ItemData
  transactionPrice : MoneyData
  quantityPurchased : String
deriving DecidableEq, Repr

/-- Shape of `order_data['TransactionArray']['Transaction']`: the upstream
API returns a bare mapping for a one-item order and a sequence of mappings
for a multi-item order. -/
inductive TransArray where
  | single (t : TransactionData)
  | multiple (ts : List TransactionData)
deriving DecidableEq, Repr

/-- `order_data['ShippingServiceSelected']`; both sub-fields may be absent. -/
structure ShippingServiceSelected where
  shippingServiceCost : Option MoneyData
  shippingService : Option String
deriving DecidableEq, Repr

/-- The order-data mapping handed to `create_using_ebay_data` (the fields
this module reads). -/
structure OrderData where
  orderID : String
  createdTime : String
  buyerUserID : String
  shippingAddress : AddressData
  total : MoneyData
  transactionArray : TransArray
  shippingServiceSelected : ShippingServiceSelected
deriving DecidableEq, Repr

/-- One `sale.line` values mapping produced by the line builders. -/
structure LineRec where
  description : String
  unit_price : ℚ
  unit : Nat
  quantity : ℚ
  product : Option Nat
  note : Option String
deriving DecidableEq, Repr

/-- Sale workflow states touched by the importer. -/
inductive SaleState where
  | draft
  | quotation
  | confirmed
deriving DecidableEq, Repr

/-- A persisted `sale.sale` record (the fields this module writes/reads). -/
structure SaleRec where
  id : Nat
  reference : String
  sale_date : Date
  party : Nat
  currency : Nat
  invoice_address : Nat
  shipment_address : Nat
  ebay_order_id : String
  lines : List LineRec
  channel : Nat
  state : SaleState
deriving DecidableEq, Repr

/-- A persisted `channel.exception` record. -/
structure ExceptionRec where
  origin : String
  log : String
  channel : Nat
deriving DecidableEq, Repr

/-- The persisted state threaded through the classmethods: the sale table,
the channel-exception table and the next fresh record id. -/
structure DB where
  sales : List SaleRec
  exceptions : List ExceptionRec
  nextId : Nat
deriving DecidableEq, Repr

/-- Observable operations on external collaborators, recorded so that
theorems can state which collaborator calls an execution performed. -/
inductive Action where
  /-- `ebay_channel.validate_ebay_channel()` -/
  | validateChannel
  /-- `ebay_channel.get_ebay_trading_api()` -/
  | getApi
  /-- `api.execute('GetOrders', ...)` for the given order id -/
  | remoteFetch (orderId : String)
  /-- `cls.quote([sale])` -/
  | quoteSale (id : Nat)
  /-- `cls.confirm([sale])` -/
  | confirmSale (id : Nat)
deriving DecidableEq, Repr

/-- The execution environment: master data, the current channel from the
transaction context, and the external collaborators (party/address/product
import, the eBay trading API) modelled as pure functions. -/
structure Env where
  currencies : List CurrencyRec
  uoms : List UomRec
  channel : ChannelRec
  /-- Whether `validate_ebay_channel()` passes for the current channel. -/
  channelValid : Bool
  /-- `ebay_channel.import_product(item_id).id` -/
  importProduct : String → Nat
  /-- `Party.find_or_create_using_ebay_id(buyer_user_id, item_id=...).id` -/
  findOrCreateParty : String → String → Nat
  /-- `party.find_or_create_address_using_ebay_data(shipping_address).id` -/
  findOrCreateAddress : AddressData → Nat
  /-- `api.execute('GetOrders', ...)`: the order data the eBay API returns
  for a given order id. -/
  api : String → OrderData

/-- The `invalid_sale` error message registered in `__setup__`, with `%s`
substituted by the offending eBay order id. -/
def invalid_sale_msg (oid : String) : String :=
  "Sale with eBay Order ID \"" ++ oid ++ "\" already exists"

/-- `Sale.check_ebay_order_id`: raise the duplicate-order user error when
this sale has a non-empty eBay order id and some other persisted sale
(different primary key) carries the same eBay order id. -/
def check_ebay_order_id (db : List SaleRec) (sale : SaleRec) : Except ErpError Unit :=
  if sale.ebay_order_id ≠ "" ∧
      (db.filter (fun s =>
        decide (s.ebay_order_id = sale.ebay_order_id ∧ s.id ≠ sale.id))) ≠ [] then
    Except.error (ErpError.userError (invalid_sale_msg sale.ebay_order_id))
  else
    Except.ok ()

/-- `Sale.validate`: run `check_ebay_order_id` on every sale of the batch
(stopping at the first failure, as the raised exception aborts the pass). -/
def validate (db : List SaleRec) (sales : List SaleRec) : Except ErpError Unit :=
  match sales with
  | [] => Except.ok ()
  | s :: rest =>
    match check_ebay_order_id db s with
    | Except.error e => Except.error e
    | Except.ok _ => validate db rest

/-- The `isinstance(transaction, dict)` normalization used by both
`create_using_ebay_data` and `get_item_line_data_using_ebay_data`: a bare
mapping becomes a one-element sequence, a sequence is kept as is. -/
def normalizeTransactions : TransArray → List TransactionData
  | TransArray.single t => [t]
  | TransArray.multiple ts => ts

/-- `Decimal(...)` lifted into the error monad: an invalid numeral raises
`decimal.InvalidOperation`. -/
def parseDecimalE (s : String) : Except ErpError ℚ :=
  match parseDecimal s with
  | some q => Except.ok q
  | none => Except.error ErpError.decimalError

/-- The per-item values mapping built in the loop body of
`get_item_line_data_using_ebay_data`. -/
def itemLine (env : Env) (u : UomRec) (item : TransactionData) : Except ErpError LineRec :=
  match parseDecimalE item.transactionPrice.value with
  | Except.error e => Except.error e
  | Except.ok price =>
    match parseDecimalE item.quantityPurchased with
    | Except.error e => Except.error e
    | Except.ok qty =>
      Except.ok
        { description := item.item.title
          unit_price := price
          unit := u.id
          quantity := qty
          product := some (env.importProduct item.item.itemID)
          note := none }

/-- The `for item in items` loop of `get_item_line_data_using_ebay_data`,
building one values mapping per transaction item, in order. -/
def itemLineLoop (env : Env) (u : UomRec) : List TransactionData → Except ErpError (List LineRec)
  | [] => Except.ok []
  | t :: ts =>
    match itemLine env u t with
    | Except.error e => Except.error e
    | Except.ok l =>
      match itemLineLoop env u ts with
      | Except.error e => Except.error e
      | Except.ok ls => Except.ok (l :: ls)

/-- `Sale.get_item_line_data_using_ebay_data`: resolve the "Unit" UoM
(exactly one must exist), validate the current channel, normalize the
transaction array and map each item to a line values mapping. -/
def get_item_line_data_using_ebay_data (env : Env) (od : OrderData) :
    Except ErpError (List LineRec) :=
  match unpackOne (env.uoms.filter (fun u => decide (u.name = "Unit"))) with
  | Except.error e => Except.error e
  | Except.ok u =>
    if env.channelValid = false then Except.error ErpError.channelError
    else itemLineLoop env u (normalizeTransactions od.transactionArray)

/-- `Sale.get_shipping_line_data_using_ebay_data`: one synthetic line with
the fixed description, unit price the exact decimal parse of the selected
shipping service's cost when present (the `.get(...) and ...` idiom yields
`Decimal(0.00)` when the cost mapping is absent), note the shipping-service
label passed through as is, quantity 1, unit the resolved "Unit" UoM. -/
def get_shipping_line_data_using_ebay_data (env : Env) (od : OrderData) :
    Except ErpError LineRec :=
  match unpackOne (env.uoms.filter (fun u => decide (u.name = "Unit"))) with
  | Except.error e => Except.error e
  | Except.ok u =>
    match od.shippingServiceSelected.shippingServiceCost with
    | none =>
      Except.ok
        { description := "eBay Shipping and Handling"
          unit_price := 0
          unit := u.id
          quantity := 1
          product := none
          note := od.shippingServiceSelected.shippingService }
    | some m =>
      match parseDecimalE m.value with
      | Except.error e => Except.error e
      | Except.ok price =>
        Except.ok
          { description := "eBay Shipping and Handling"
            unit_price := price
            unit := u.id
            quantity := 1
            product := none
            note := od.shippingServiceSelected.shippingService }

/-- Modelled from the spec: `sale.total_amount` is a function field computed
by the host ERP's sale module (outside this repository) — "Compute the
sale's total"; the sale's total is the sum over its lines of unit price
times quantity. -/
def totalAmount (lines : List LineRec) : ℚ :=
  (lines.map (fun l => l.unit_price * l.quantity)).sum

/-- The `sale_data` mapping assembled by `create_using_ebay_data` (state
`draft` is the sale workflow's initial state on `create`). -/
def mkSaleRec (env : Env) (od : OrderData) (db : DB) (currency : CurrencyRec)
    (partyId addrId : Nat) (saleDate : Date) (lines : List LineRec) : SaleRec :=
  { id := db.nextId
    reference := od.orderID
    sale_date := saleDate
    party := partyId
    currency := currency.id
    invoice_address := addrId
    shipment_address := addrId
    ebay_order_id := od.orderID
    lines := lines
    channel := env.channel.id
    state := SaleState.draft }

/-- The reconciliation tail of `create_using_ebay_data` (source lines
173-191): persist the sale; when its computed total differs from the
reported order total create one channel exception referencing the sale and
return it unconfirmed, otherwise quote then confirm it. -/
def reconcileSale (db : DB) (sale : SaleRec) (reported : ℚ) :
    SaleRec × DB × List Action :=
  if totalAmount sale.lines ≠ reported then
    (sale,
     { sales := db.sales ++ [sale]
       exceptions := db.exceptions ++
         [{ origin := "sale.sale," ++ toString sale.id
            log := "Order total does not match."
            channel := sale.channel }]
       nextId := db.nextId + 1 },
     [Action.validateChannel])
  else
    ({ sale with state := SaleState.confirmed },
     { sales := db.sales ++ [{ sale with state := SaleState.confirmed }]
       exceptions := db.exceptions
       nextId := db.nextId + 1 },
     [Action.validateChannel, Action.quoteSale sale.id, Action.confirmSale sale.id])

/-- `Sale.create_using_ebay_data`: validate the channel, resolve the
currency by code (`limit=1` search unpacked into exactly one variable),
pick the first transaction for the buyer-relationship item id, resolve the
party and address, resolve the "Unit" UoM, parse the sale date, build the
item lines and append the shipping line, create the sale and reconcile its
total against the reported order total. -/
def create_using_ebay_data (env : Env) (od : OrderData) (db : DB) :
    Except ErpError (SaleRec × DB × List Action) :=
  if env.channelValid = false then Except.error ErpError.channelError
  else
    match unpackOne ((env.currencies.filter
        (fun c => decide (c.code = od.total.currencyID))).take 1) with
    | Except.error e => Except.error e
    | Except.ok currency =>
      match (normalizeTransactions od.transactionArray).head? with
      | none => Except.error ErpError.indexError
      | some firstTx =>
        match unpackOne (env.uoms.filter (fun u => decide (u.name = "Unit"))) with
        | Except.error e => Except.error e
        | Except.ok _unit =>
          match parseSaleDate od.createdTime with
          | Except.error e => Except.error e
          | Except.ok saleDate =>
            match get_item_line_data_using_ebay_data env od with
            | Except.error e => Except.error e
            | Except.ok ils =>
              match get_shipping_line_data_using_ebay_data env od with
              | Except.error e => Except.error e
              | Except.ok sl =>
                match parseDecimalE od.total.value with
                | Except.error e => Except.error e
                | Except.ok reported =>
                  Except.ok (reconcileSale db
                    (mkSaleRec env od db currency
                      (env.findOrCreateParty od.buyerUserID firstTx.item.itemID)
                      (env.findOrCreateAddress od.shippingAddress)
                      saleDate (ils ++ [sl]))
                    reported)

/-- `Sale.find_or_create_using_ebay_id`: search existing sales for the
eBay order id and return the first match; otherwise validate the channel,
obtain the trading API, fetch the order and hand it to
`create_using_ebay_data`. -/
def find_or_create_using_ebay_id (env : Env) (order_id : String) (db : DB) :
    Except ErpError (SaleRec × DB × List Action) :=
  match (db.sales.filter (fun s => decide (s.ebay_order_id = order_id))).head? with
  | some s => Except.ok (s, db, [])
  | none =>
    if env.channelValid = false then Except.error ErpError.channelError
    else
      match create_using_ebay_data env (env.api order_id) db with
      | Except.error e => Except.error e
      | Except.ok (sale, db2, acts) =>
        Except.ok (sale, db2,
          [Action.validateChannel, Action.getApi, Action.remoteFetch order_id] ++ acts)

/-- Whether a classmethod run returned without raising. -/
def isOkB : Except ErpError (SaleRec × DB × List Action) → Bool
  | Except.ok _ => true
  | Except.error _ => false

/-! Concrete fixtures used to exercise the theorems on explicit inputs. -/

/-- A USD currency record. -/
def c0 : CurrencyRec := ⟨1, "USD"⟩

/-- The "Unit" unit of measure. -/
def u0 : UomRec := ⟨2, "Unit"⟩

/-- The current sale channel. -/
def ch0 : ChannelRec := ⟨3⟩

/-- A shipping address mapping. -/
def addr0 : AddressData := ⟨"555-0100"⟩

/-- One transaction: item IT1 "Cool item", price 10.00, quantity 2. -/
def tx0 : TransactionData := ⟨⟨"IT1", "Cool item"⟩, ⟨"10.00", "USD"⟩, "2"⟩

/-- Shipping service selection: cost 5.50, label "Standard". -/
def shipSel0 : ShippingServiceSelected := ⟨some ⟨"5.50", "USD"⟩, some "Standard"⟩

/-- An order whose reported total 25.50 equals 10.00 × 2 + 5.50. -/
def od0 : OrderData :=
  { orderID := "ORD1"
    createdTime := "2015-03-01 10:20:30"
    buyerUserID := "buyer1"
    shippingAddress := addr0
    total := ⟨"25.50", "USD"⟩
    transactionArray := TransArray.single tx0
    shippingServiceSelected := shipSel0 }

/-- The same order with a reported total (99.00) that does not match. -/
def odMis : OrderData := { od0 with total := ⟨"99.00", "USD"⟩ }

/-- An environment with the master data above and constant collaborators;
the remote API echoes the requested order id. -/
def env0 : Env :=
  { currencies := [c0]
    uoms := [u0]
    channel := ch0
    channelValid := true
    importProduct := fun _ => 7
    findOrCreateParty := fun _ _ => 4
    findOrCreateAddress := fun _ => 5
    api := fun oid => { od0 with orderID := oid } }

/-- An empty database. -/
def db0 : DB := { sales := [], exceptions := [], nextId := 100 }

/-- The item line produced for `tx0`. -/
def line0 : LineRec :=
  { description := "Cool item", unit_price := 10, unit := 2, quantity := 2
    product := some 7, note := none }

/-- The shipping line produced for `shipSel0`. -/
def shipLine0 : LineRec :=
  { description := "eBay Shipping and Handling", unit_price := 11 / 2, unit := 2
    quantity := 1, product := none, note := some "Standard" }

/-- The confirmed sale created by importing `od0` into `db0` under `env0`. -/
def sale0 : SaleRec :=
  { id := 100, reference := "ORD1", sale_date := ⟨2015, 3, 1⟩, party := 4
    currency := 1, invoice_address := 5, shipment_address := 5
    ebay_order_id := "ORD1", lines := [line0, shipLine0], channel := 3
    state := SaleState.confirmed }

/-- The database after that import. -/
def db0' : DB := { sales := [sale0], exceptions := [], nextId := 101 }

/-- An environment in which two currencies share the code "USD". -/
def envTwo : Env := { env0 with currencies := [c0, ⟨9, "USD"⟩] }

/-- An environment with no currency matching any code. -/
def envNone : Env := { env0 with currencies := [] }

/-- The `od0` order with neither shipping cost nor shipping-service label. -/
def odNoShip : OrderData := { od0 with shippingServiceSelected := ⟨none, none⟩ }

/-- A persisted sale with eBay order id "DUP". -/
def saleDupA : SaleRec := { sale0 with id := 200, ebay_order_id := "DUP" }

/-- A second persisted sale with the same eBay order id "DUP". -/
def saleDupB : SaleRec := { sale0 with id := 201, ebay_order_id := "DUP" }

/-! Helper lemmas. -/

/-- The duplicate search of `check_ebay_order_id` finds something exactly
when another persisted sale (different id) carries the same eBay order id. -/
lemma dup_filter_iff (db : List SaleRec) (sale : SaleRec) :
    (db.filter (fun s =>
        decide (s.ebay_order_id = sale.ebay_order_id ∧ s.id ≠ sale.id))) ≠ [] ↔
    ∃ other ∈ db, other.id ≠ sale.id ∧ other.ebay_order_id = sale.ebay_order_id := by
  rw [ne_eq, List.filter_eq_nil_iff]
  push_neg
  constructor
  · rintro ⟨a, ha, hp⟩
    rw [decide_eq_true_eq] at hp
    exact ⟨a, ha, hp.2, hp.1⟩
  · rintro ⟨a, ha, h1, h2⟩
    exact ⟨a, ha, by rw [decide_eq_true_eq]; exact ⟨h2, h1⟩⟩

/-- `check_ebay_order_id` raises exactly the duplicate-order user error,
exactly under the duplicate condition. -/
lemma check_error_iff (db : List SaleRec) (sale : SaleRec) :
    check_ebay_order_id db sale =
      Except.error (ErpError.userError (invalid_sale_msg sale.ebay_order_id)) ↔
    (sale.ebay_order_id ≠ "" ∧
      ∃ other ∈ db, other.id ≠ sale.id ∧ other.ebay_order_id = sale.ebay_order_id) := by
  unfold check_ebay_order_id
  split
  next hc => exact iff_of_true rfl ⟨hc.1, (dup_filter_iff db sale).mp hc.2⟩
  next hc =>
    exact iff_of_false (by simp) (fun hr => hc ⟨hr.1, (dup_filter_iff db sale).mpr hr.2⟩)

/-- `check_ebay_order_id` passes exactly when the duplicate condition fails. -/
lemma check_ok_iff (db : List SaleRec) (sale : SaleRec) :
    check_ebay_order_id db sale = Except.ok () ↔
    ¬(sale.ebay_order_id ≠ "" ∧
      ∃ other ∈ db, other.id ≠ sale.id ∧ other.ebay_order_id = sale.ebay_order_id) := by
  unfold check_ebay_order_id
  split
  next hc =>
    exact iff_of_false (by simp) (fun hr => hr ⟨hc.1, (dup_filter_iff db sale).mp hc.2⟩)
  next hc =>
    exact iff_of_true rfl (fun hr => hc ⟨hr.1, (dup_filter_iff db sale).mpr hr.2⟩)

/-- Any error of `check_ebay_order_id` is the duplicate-order user error,
and comes with the duplicate condition. -/
lemma check_error_form (db : List SaleRec) (sale : SaleRec) (e : ErpError)
    (h : check_ebay_order_id db sale = Except.error e) :
    e = ErpError.userError (invalid_sale_msg sale.ebay_order_id) ∧
    sale.ebay_order_id ≠ "" ∧
      ∃ other ∈ db, other.id ≠ sale.id ∧ other.ebay_order_id = sale.ebay_order_id := by
  unfold check_ebay_order_id at h
  split at h
  next hc =>
    cases h
    exact ⟨rfl, hc.1, (dup_filter_iff db sale).mp hc.2⟩
  next hc => exact absurd h (by simp)

/-- `validate` passes exactly when every sale of the batch passes the check. -/
lemma validate_ok_iff (db : List SaleRec) :
    ∀ sales, validate db sales = Except.ok () ↔
      ∀ sale ∈ sales, check_ebay_order_id db sale = Except.ok () := by
  intro sales
  induction sales with
  | nil => simp [validate]
  | cons s rest ih =>
    unfold validate
    cases hc : check_ebay_order_id db s with
    | error e =>
      refine iff_of_false (by simp) (fun hall => ?_)
      have hs := hall s (List.mem_cons_self s rest)
      rw [hc] at hs
      exact Except.noConfusion hs
    | ok u =>
      cases u
      simp only [List.forall_mem_cons, hc, true_and]
      exact ih

/-- Any error of `validate` is the duplicate-order user error of some sale
of the batch satisfying the duplicate condition. -/
lemma validate_error_form (db : List SaleRec) :
    ∀ sales e, validate db sales = Except.error e →
      ∃ sale ∈ sales, e = ErpError.userError (invalid_sale_msg sale.ebay_order_id) ∧
        sale.ebay_order_id ≠ "" ∧
        ∃ other ∈ db, other.id ≠ sale.id ∧ other.ebay_order_id = sale.ebay_order_id := by
  intro sales
  induction sales with
  | nil => intro e h; exact absurd h (by simp [validate])
  | cons s rest ih =>
    intro e h
    unfold validate at h
    cases hc : check_ebay_order_id db s with
    | error e2 =>
      rw [hc] at h
      injection h with h2
      obtain ⟨he, hcond⟩ := check_error_form db s e2 hc
      exact ⟨s, List.mem_cons_self s rest, h2.symm.trans he, hcond⟩
    | ok u =>
      cases u
      rw [hc] at h
      obtain ⟨sale, hmem, hrest⟩ := ih e h
      exact ⟨sale, List.mem_cons_of_mem s hmem, hrest⟩

/-- Tuple unpacking succeeds exactly on one-element lists. -/
lemma unpackOne_ok {α : Type} (l : List α) (x : α) (h : unpackOne l = Except.ok x) :
    l = [x] := by
  unfold unpackOne at h
  split at h
  next y => injection h with h2; subst h2; rfl
  next => exact absurd h (by simp)

/-- A one-element `take` pins down the head of the list. -/
lemma take_one_eq_singleton {α : Type} (l : List α) (x : α) (h : l.take 1 = [x]) :
    ∃ rest, l = x :: rest := by
  cases l with
  | nil => simp at h
  | cons a t =>
    simp at h
    exact ⟨t, by rw [h]⟩

/-- Field content of a successfully built item line. -/
lemma itemLine_ok (env : Env) (u : UomRec) (item : TransactionData) (l : LineRec)
    (h : itemLine env u item = Except.ok l) :
    l.description = item.item.title ∧
    parseDecimalE item.transactionPrice.value = Except.ok l.unit_price ∧
    parseDecimalE item.quantityPurchased = Except.ok l.quantity ∧
    l.unit = u.id ∧
    l.product = some (env.importProduct item.item.itemID) ∧
    l.note = none := by
  unfold itemLine at h
  split at h
  next heq => exact absurd h (by simp)
  next price heq =>
    split at h
    next heq2 => exact absurd h (by simp)
    next qty heq2 =>
      injection h with h2
      subst h2
      exact ⟨rfl, heq, heq2, rfl, rfl, rfl⟩

/-- The item-line loop maps each transaction to its line, in order. -/
lemma itemLineLoop_forall₂ (env : Env) (u : UomRec) :
    ∀ ts ls, itemLineLoop env u ts = Except.ok ls →
      List.Forall₂ (fun (item : TransactionData) (l : LineRec) =>
        l.description = item.item.title ∧
        parseDecimalE item.transactionPrice.value = Except.ok l.unit_price ∧
        parseDecimalE item.quantityPurchased = Except.ok l.quantity ∧
        l.unit = u.id ∧
        l.product = some (env.importProduct item.item.itemID) ∧
        l.note = none) ts ls := by
  intro ts
  induction ts with
  | nil =>
    intro ls h
    unfold itemLineLoop at h
    injection h with h2
    subst h2
    exact List.Forall₂.nil
  | cons t ts ih =>
    intro ls h
    unfold itemLineLoop at h
    split at h
    next heq => exact absurd h (by simp)
    next l heq =>
      split at h
      next heq2 => exact absurd h (by simp)
      next ls2 heq2 =>
        injection h with h2
        subst h2
        exact List.Forall₂.cons (itemLine_ok env u t l heq) (ih ls2 heq2)

/-- A successful `get_item_line_data_using_ebay_data` run is a successful
loop over the normalized transactions (given the resolved "Unit" UoM). -/
lemma get_item_line_ok (env : Env) (od : OrderData) (u : UomRec) (ls : List LineRec)
    (huom : env.uoms.filter (fun x => decide (x.name = "Unit")) = [u])
    (h : get_item_line_data_using_ebay_data env od = Except.ok ls) :
    itemLineLoop env u (normalizeTransactions od.transactionArray) = Except.ok ls := by
  unfold get_item_line_data_using_ebay_data at h
  rw [huom] at h
  simp only [unpackOne] at h
  split at h
  next => exact absurd h (by simp)
  next => exact h

/-- Case analysis on the reconciliation tail: the persisted sale keeps the
assembled fields; on total mismatch exactly one exception referencing it is
appended and it stays in draft, otherwise it is quoted then confirmed and
no exception is created. -/
lemma reconcileSale_cases (db : DB) (s : SaleRec) (r : ℚ) (sale : SaleRec)
    (db2 : DB) (acts : List Action)
    (h : reconcileSale db s r = (sale, db2, acts)) (hs : s.state = SaleState.draft) :
    sale.id = s.id ∧ sale.ebay_order_id = s.ebay_order_id ∧
    sale.reference = s.reference ∧ sale.sale_date = s.sale_date ∧
    sale.lines = s.lines ∧ sale.channel = s.channel ∧ sale.currency = s.currency ∧
    db2.sales = db.sales ++ [sale] ∧ db2.nextId = db.nextId + 1 ∧
    ((totalAmount sale.lines ≠ r ∧ sale.state = SaleState.draft ∧
        acts = [Action.validateChannel] ∧
        db2.exceptions = db.exceptions ++
          [{ origin := "sale.sale," ++ toString sale.id
             log := "Order total does not match."
             channel := sale.channel }]) ∨
     (totalAmount sale.lines = r ∧ sale.state = SaleState.confirmed ∧
        acts = [Action.validateChannel, Action.quoteSale sale.id,
          Action.confirmSale sale.id] ∧
        db2.exceptions = db.exceptions)) := by
  unfold reconcileSale at h
  split at h
  next hne =>
    injection h with h1 hrest
    injection hrest with h2 h3
    subst h1; subst h2; subst h3
    exact ⟨rfl, rfl, rfl, rfl, rfl, rfl, rfl, rfl, rfl,
      Or.inl ⟨hne, hs, rfl, rfl⟩⟩
  next heq =>
    injection h with h1 hrest
    injection hrest with h2 h3
    subst h1; subst h2; subst h3
    exact ⟨rfl, rfl, rfl, rfl, rfl, rfl, rfl, rfl, rfl,
      Or.inr ⟨not_ne_iff.mp heq, rfl, rfl, rfl⟩⟩

/-- Master inversion for `create_using_ebay_data`: everything a successful
run guarantees about the returned sale, the database delta and the
collaborator calls. -/
lemma create_ok_cases (env : Env) (od : OrderData) (db : DB) (sale : SaleRec)
    (db2 : DB) (acts : List Action)
    (h : create_using_ebay_data env od db = Except.ok (sale, db2, acts)) :
    env.channelValid = true ∧
    (∃ c cs, env.currencies.filter
        (fun x => decide (x.code = od.total.currencyID)) = c :: cs ∧
      sale.currency = c.id) ∧
    sale.id = db.nextId ∧
    sale.reference = od.orderID ∧
    sale.ebay_order_id = od.orderID ∧
    sale.channel = env.channel.id ∧
    parseSaleDate od.createdTime = Except.ok sale.sale_date ∧
    (∃ ls sl, get_item_line_data_using_ebay_data env od = Except.ok ls ∧
      get_shipping_line_data_using_ebay_data env od = Except.ok sl ∧
      sale.lines = ls ++ [sl]) ∧
    db2.sales = db.sales ++ [sale] ∧
    (∃ r, parseDecimalE od.total.value = Except.ok r ∧
      ((totalAmount sale.lines ≠ r ∧ sale.state = SaleState.draft ∧
          acts = [Action.validateChannel] ∧
          db2.exceptions = db.exceptions ++
            [{ origin := "sale.sale," ++ toString sale.id
               log := "Order total does not match."
               channel := sale.channel }]) ∨
       (totalAmount sale.lines = r ∧ sale.state = SaleState.confirmed ∧
          acts = [Action.validateChannel, Action.quoteSale sale.id,
            Action.confirmSale sale.id] ∧
          db2.exceptions = db.exceptions))) := by
  unfold create_using_ebay_data at h
  split at h
  next => exact absurd h (by simp)
  next hch =>
    have hch' : env.channelValid = true := by
      cases hcv : env.channelValid
      · exact absurd hcv hch
      · rfl
    split at h
    next heq => exact absurd h (by simp)
    next currency heq =>
      split at h
      next heq2 => exact absurd h (by simp)
      next firstTx heq2 =>
        split at h
        next heq3 => exact absurd h (by simp)
        next unit heq3 =>
          split at h
          next heq4 => exact absurd h (by simp)
          next saleDate heq4 =>
            split at h
            next heq5 => exact absurd h (by simp)
            next ils heq5 =>
              split at h
              next heq6 => exact absurd h (by simp)
              next sl heq6 =>
                split at h
                next heq7 => exact absurd h (by simp)
                next reported heq7 =>
                  injection h with h2
                  obtain ⟨hid, hoid, href, hdate, hlines, hchan, hcur2, hsales,
                    hnext, hbranch⟩ :=
                    reconcileSale_cases db _ reported sale db2 acts h2 rfl
                  obtain ⟨rest, hrest⟩ :=
                    take_one_eq_singleton _ currency (unpackOne_ok _ currency heq)
                  refine ⟨hch', ⟨currency, rest, hrest, by rw [hcur2]; rfl⟩,
                    by rw [hid]; rfl, by rw [href]; rfl, by rw [hoid]; rfl,
                    by rw [hchan]; rfl,
                    by rw [hdate]; exact heq4,
                    ⟨ils, sl, heq5, heq6, by rw [hlines]; rfl⟩,
                    hsales, ⟨reported, heq7, hbranch⟩⟩

/-- Forward computation of `create_using_ebay_data`: when every resolution
and parsing step succeeds, the run reaches the reconciliation tail with the
assembled sale. -/
lemma create_run (env : Env) (od : OrderData) (db : DB) (c : CurrencyRec)
    (cs : List CurrencyRec) (t : TransactionData) (ts : List TransactionData)
    (u : UomRec) (d : Date) (ls : List LineRec) (sl : LineRec) (r : ℚ)
    (hch : env.channelValid = true)
    (hcur : env.currencies.filter (fun x => decide (x.code = od.total.currencyID)) = c :: cs)
    (htx : normalizeTransactions od.transactionArray = t :: ts)
    (huom : env.uoms.filter (fun x => decide (x.name = "Unit")) = [u])
    (hdate : parseSaleDate od.createdTime = Except.ok d)
    (hil : get_item_line_data_using_ebay_data env od = Except.ok ls)
    (hsl : get_shipping_line_data_using_ebay_data env od = Except.ok sl)
    (hr : parseDecimalE od.total.value = Except.ok r) :
    create_using_ebay_data env od db =
      Except.ok (reconcileSale db
        (mkSaleRec env od db c (env.findOrCreateParty od.buyerUserID t.item.itemID)
          (env.findOrCreateAddress od.shippingAddress) d (ls ++ [sl])) r) := by
  unfold create_using_ebay_data
  rw [hcur, htx, huom, hdate, hil, hsl, hr]
  simp [hch, unpackOne]

/-- C3: on every validation pass over a set of sales, validation passes iff
no sale in the batch with a non-empty eBay order id shares that id with a
differently-keyed persisted sale; `check_ebay_order_id` raises the
duplicate-order user error exactly under that condition; and any validation
failure is that user error for some offending sale of the batch.  The model
has no state to mutate, so raising is the only effect. -/
theorem C3_duplicate_guard (db sales : List SaleRec) :
    (validate db sales = Except.ok () ↔
      ∀ sale ∈ sales, ¬(sale.ebay_order_id ≠ "" ∧
        ∃ other ∈ db, other.id ≠ sale.id ∧
          other.ebay_order_id = sale.ebay_order_id)) ∧
    (∀ sale : SaleRec,
      check_ebay_order_id db sale =
          Except.error (ErpError.userError (invalid_sale_msg sale.ebay_order_id)) ↔
        (sale.ebay_order_id ≠ "" ∧
          ∃ other ∈ db, other.id ≠ sale.id ∧
            other.ebay_order_id = sale.ebay_order_id)) ∧
    (∀ e, validate db sales = Except.error e →
      ∃ sale ∈ sales, e = ErpError.userError (invalid_sale_msg sale.ebay_order_id) ∧
        sale.ebay_order_id ≠ "" ∧
        ∃ other ∈ db, other.id ≠ sale.id ∧
          other.ebay_order_id = sale.ebay_order_id) := by
  refine ⟨?_, fun sale => check_error_iff db sale, fun e h => validate_error_form db sales e h⟩
  rw [validate_ok_iff db sales]
  exact forall₂_congr (fun sale _ => check_ok_iff db sale)

/-- C5: mapping an order whose transaction field is a bare mapping yields
the same line data as mapping the otherwise-equal order whose transaction
field is the one-element sequence of that mapping. -/
theorem C5_transaction_shape (env : Env) (od : OrderData) (t : TransactionData)
    (h : od.transactionArray = TransArray.single t) :
    get_item_line_data_using_ebay_data env
        { od with transactionArray := TransArray.multiple [t] } =
      get_item_line_data_using_ebay_data env od := by
  unfold get_item_line_data_using_ebay_data
  simp only [h, normalizeTransactions]

/-- C5 witness: the two shapes of the `tx0` order map identically. -/
theorem C5_transaction_shape_witness :
    get_item_line_data_using_ebay_data env0
        { od0 with transactionArray := TransArray.multiple [tx0] } =
      get_item_line_data_using_ebay_data env0 od0 :=
  C5_transaction_shape env0 od0 tx0 rfl

/-- C1: when the item-line totals plus shipping cost differ from the
reported order total by any nonzero amount, `create_using_ebay_data`
appends exactly one channel exception referencing the created sale (its
`sale.sale,<id>` origin and its channel), leaves the sale in draft (the
actions contain no quote/confirm transition), and still returns the sale
successfully rather than raising. -/
theorem C1_total_mismatch (env : Env) (od : OrderData) (db : DB) (c : CurrencyRec)
    (cs : List CurrencyRec) (t : TransactionData) (ts : List TransactionData)
    (u : UomRec) (d : Date) (ls : List LineRec) (sl : LineRec) (r : ℚ)
    (hch : env.channelValid = true)
    (hcur : env.currencies.filter (fun x => decide (x.code = od.total.currencyID)) = c :: cs)
    (htx : normalizeTransactions od.transactionArray = t :: ts)
    (huom : env.uoms.filter (fun x => decide (x.name = "Unit")) = [u])
    (hdate : parseSaleDate od.createdTime = Except.ok d)
    (hil : get_item_line_data_using_ebay_data env od = Except.ok ls)
    (hsl : get_shipping_line_data_using_ebay_data env od = Except.ok sl)
    (hr : parseDecimalE od.total.value = Except.ok r)
    (hne : totalAmount (ls ++ [sl]) ≠ r) :
    ∃ sale db2,
      create_using_ebay_data env od db =
        Except.ok (sale, db2, [Action.validateChannel]) ∧
      sale.state = SaleState.draft ∧
      sale.lines = ls ++ [sl] ∧
      db2.sales = db.sales ++ [sale] ∧
      db2.exceptions = db.exceptions ++
        [{ origin := "sale.sale," ++ toString sale.id
           log := "Order total does not match."
           channel := sale.channel }] ∧
      sale.channel = env.channel.id := by
  have hrun := create_run env od db c cs t ts u d ls sl r
    hch hcur htx huom hdate hil hsl hr
  rw [reconcileSale,
    if_pos (show totalAmount (mkSaleRec env od db c
        (env.findOrCreateParty od.buyerUserID t.item.itemID)
        (env.findOrCreateAddress od.shippingAddress) d (ls ++ [sl])).lines ≠ r
      from hne)] at hrun
  exact ⟨_, _, hrun, rfl, rfl, rfl, rfl, rfl⟩

/-- C1 witness: importing `odMis` (reported total 99.00, computed 25.50)
returns the draft sale and records exactly one exception. -/
theorem C1_total_mismatch_witness :
    ∃ sale db2,
      create_using_ebay_data env0 odMis db0 =
        Except.ok (sale, db2, [Action.validateChannel]) ∧
      sale.state = SaleState.draft ∧
      sale.lines = [line0] ++ [shipLine0] ∧
      db2.sales = db0.sales ++ [sale] ∧
      db2.exceptions = db0.exceptions ++
        [{ origin := "sale.sale," ++ toString sale.id
           log := "Order total does not match."
           channel := sale.channel }] ∧
      sale.channel = env0.channel.id :=
  C1_total_mismatch env0 odMis db0 c0 [] tx0 [] u0 ⟨2015, 3, 1⟩ [line0] shipLine0 99
    (by decide) (by decide) (by decide) (by decide) (by decide) (by decide)
    (by decide) (by decide) (by decide)

/-- C2: when the computed sale total exactly equals the reported order
total, `create_using_ebay_data` creates no channel exception and performs
exactly the two transitions quote then confirm on the created sale; and on
any successful run whatsoever, confirming and creating an exception are
mutually exclusive: a confirmed sale leaves the exception table unchanged,
and a changed exception table means a draft sale with no quote/confirm
transition performed. -/
theorem C2_total_match (env : Env) (od : OrderData) (db : DB) (c : CurrencyRec)
    (cs : List CurrencyRec) (t : TransactionData) (ts : List TransactionData)
    (u : UomRec) (d : Date) (ls : List LineRec) (sl : LineRec) (r : ℚ)
    (hch : env.channelValid = true)
    (hcur : env.currencies.filter (fun x => decide (x.code = od.total.currencyID)) = c :: cs)
    (htx : normalizeTransactions od.transactionArray = t :: ts)
    (huom : env.uoms.filter (fun x => decide (x.name = "Unit")) = [u])
    (hdate : parseSaleDate od.createdTime = Except.ok d)
    (hil : get_item_line_data_using_ebay_data env od = Except.ok ls)
    (hsl : get_shipping_line_data_using_ebay_data env od = Except.ok sl)
    (hr : parseDecimalE od.total.value = Except.ok r)
    (heq : totalAmount (ls ++ [sl]) = r) :
    (∃ sale db2,
      create_using_ebay_data env od db =
        Except.ok (sale, db2,
          [Action.validateChannel, Action.quoteSale sale.id,
            Action.confirmSale sale.id]) ∧
      sale.state = SaleState.confirmed ∧
      sale.lines = ls ++ [sl] ∧
      db2.sales = db.sales ++ [sale] ∧
      db2.exceptions = db.exceptions) ∧
    (∀ (env2 : Env) (od2 : OrderData) (dbA : DB) (s2 : SaleRec) (dbB : DB)
        (acts2 : List Action),
      create_using_ebay_data env2 od2 dbA = Except.ok (s2, dbB, acts2) →
      (s2.state = SaleState.confirmed → dbB.exceptions = dbA.exceptions) ∧
      (dbB.exceptions ≠ dbA.exceptions →
        s2.state = SaleState.draft ∧
        Action.quoteSale s2.id ∉ acts2 ∧ Action.confirmSale s2.id ∉ acts2)) := by
  constructor
  · have hrun := create_run env od db c cs t ts u d ls sl r
      hch hcur htx huom hdate hil hsl hr
    rw [reconcileSale,
      if_neg (show ¬ totalAmount (mkSaleRec env od db c
          (env.findOrCreateParty od.buyerUserID t.item.itemID)
          (env.findOrCreateAddress od.shippingAddress) d (ls ++ [sl])).lines ≠ r
        from not_ne_iff.mpr heq)] at hrun
    exact ⟨_, _, hrun, rfl, rfl, rfl, rfl⟩
  · intro env2 od2 dbA s2 dbB acts2 h2
    obtain ⟨-, -, -, -, -, -, -, -, -, r2, -, hbranch⟩ :=
      create_ok_cases env2 od2 dbA s2 dbB acts2 h2
    rcases hbranch with ⟨hne2, hdraft, hacts, hexc⟩ | ⟨heq2, hconf, hacts, hexc⟩
    · constructor
      · intro hstate
        rw [hdraft] at hstate
        exact absurd hstate (by simp)
      · intro _
        refine ⟨hdraft, ?_, ?_⟩ <;> rw [hacts] <;> simp
    · constructor
      · intro _
        exact hexc
      · intro hx
        exact absurd hexc hx

/-- C2 witness: importing `od0` (reported total 25.50 = 10.00 × 2 + 5.50)
confirms the sale via quote then confirm and creates no exception. -/
theorem C2_total_match_witness :
    ∃ sale db2,
      create_using_ebay_data env0 od0 db0 =
        Except.ok (sale, db2,
          [Action.validateChannel, Action.quoteSale sale.id,
            Action.confirmSale sale.id]) ∧
      sale.state = SaleState.confirmed ∧
      sale.lines = [line0] ++ [shipLine0] ∧
      db2.sales = db0.sales ++ [sale] ∧
      db2.exceptions = db0.exceptions :=
  (C2_total_match env0 od0 db0 c0 [] tx0 [] u0 ⟨2015, 3, 1⟩ [line0] shipLine0
    (51 / 2) (by decide) (by decide) (by decide) (by decide) (by decide)
    (by decide) (by decide) (by decide) (by decide)).1

/-- C3 witness: with two persisted sales sharing id "DUP", the check on the
first raises the duplicate-order user error. -/
theorem C3_duplicate_guard_witness :
    check_ebay_order_id [saleDupA, saleDupB] saleDupA =
      Except.error (ErpError.userError (invalid_sale_msg saleDupA.ebay_order_id)) :=
  ((C3_duplicate_guard [saleDupA, saleDupB] []).2.1 saleDupA).mpr (by decide)

/-- The head of a filtered list is the unique element satisfying the
predicate, when there is one. -/
lemma filter_head_unique {α : Type} (p : α → Bool) (s : α) :
    ∀ l : List α, s ∈ l → p s = true → (∀ t ∈ l, p t = true → t = s) →
      (l.filter p).head? = some s := by
  intro l
  induction l with
  | nil => intro h _ _; cases h
  | cons a t ih =>
    intro hmem hps huniq
    by_cases hpa : p a = true
    · have ha : a = s := huniq a (List.mem_cons_self a t) hpa
      subst ha
      rw [List.filter_cons_of_pos hpa]
      rfl
    · rw [List.filter_cons_of_neg hpa]
      refine ih ?_ hps (fun x hx hpx => huniq x (List.mem_cons_of_mem a hx) hpx)
      rcases List.mem_cons.mp hmem with h | h
      · exact absurd (h ▸ hps) hpa
      · exact h

/-- C4: when a sale with the requested eBay order id is already persisted,
`find_or_create_using_ebay_id` returns it with an empty collaborator trace
(no channel validation, no API construction, no remote fetch); and a repeat
call with the same identifier returns the same sale the second time with no
remote interaction, assuming the marketplace returns the order that was
asked for. -/
theorem C4_find_or_create_idempotent :
    (∀ (env : Env) (oid : String) (db : DB) (s : SaleRec),
      s ∈ db.sales → s.ebay_order_id = oid →
      (∀ t ∈ db.sales, t.ebay_order_id = oid → t = s) →
      find_or_create_using_ebay_id env oid db = Except.ok (s, db, [])) ∧
    (∀ (env : Env) (oid : String) (db : DB) (s : SaleRec),
      (db.sales.filter (fun x => decide (x.ebay_order_id = oid))).head? = some s →
      find_or_create_using_ebay_id env oid db = Except.ok (s, db, [])) ∧
    (∀ (env : Env) (oid : String) (db : DB) (s : SaleRec) (db2 : DB)
        (acts : List Action),
      (env.api oid).orderID = oid →
      find_or_create_using_ebay_id env oid db = Except.ok (s, db2, acts) →
      find_or_create_using_ebay_id env oid db2 = Except.ok (s, db2, [])) := by
  have hfound : ∀ (env : Env) (oid : String) (db : DB) (s : SaleRec),
      (db.sales.filter (fun x => decide (x.ebay_order_id = oid))).head? = some s →
      find_or_create_using_ebay_id env oid db = Except.ok (s, db, []) := by
    intro env oid db s hh
    unfold find_or_create_using_ebay_id
    rw [hh]
  refine ⟨?_, hfound, ?_⟩
  · intro env oid db s hmem hoid huniq
    refine hfound env oid db s ?_
    refine filter_head_unique _ s db.sales hmem (by rw [decide_eq_true_eq]; exact hoid) ?_
    intro x hx hpx
    rw [decide_eq_true_eq] at hpx
    exact huniq x hx hpx
  · intro env oid db s db2 acts happi h
    unfold find_or_create_using_ebay_id at h
    split at h
    next s0 hh =>
      injection h with hA
      injection hA with h1 hBC
      injection hBC with h2 h3
      subst h1
      subst h2
      exact hfound env oid db s0 hh
    next hh =>
      split at h
      next => exact absurd h (by simp)
      next hch =>
        split at h
        next e hc => exact absurd h (by simp)
        next sale dbC actsC hc =>
          injection h with hA
          injection hA with h1 hBC
          injection hBC with h2 h3
          subst h1
          subst h2
          obtain ⟨-, -, -, -, hoid2, -, -, -, hsales, -⟩ :=
            create_ok_cases env (env.api oid) db sale dbC actsC hc
          have hfil : db.sales.filter (fun x => decide (x.ebay_order_id = oid)) = [] :=
            List.head?_eq_none_iff.mp hh
          refine hfound env oid dbC sale ?_
          rw [hsales, List.filter_append, hfil,
            List.filter_cons_of_pos (by rw [decide_eq_true_eq]; exact hoid2.trans happi)]
          rfl

/-- C4 witness: after the first import of "ORD1" into the empty database,
a second call returns the same sale with no collaborator interaction. -/
theorem C4_find_or_create_idempotent_witness :
    find_or_create_using_ebay_id env0 "ORD1" db0' = Except.ok (sale0, db0', []) :=
  C4_find_or_create_idempotent.2.2 env0 "ORD1" db0 sale0 db0'
    [Action.validateChannel, Action.getApi, Action.remoteFetch "ORD1",
      Action.validateChannel, Action.quoteSale 100, Action.confirmSale 100]
    (by decide) (by decide)

/-- C6 counterexample: with two currencies both matching the order's
currency code, the import succeeds rather than failing hard — the
`limit=1` search takes the first match, so multiple matches do not fail. -/
theorem C6_multiple_currencies_counterexample :
    isOkB (create_using_ebay_data envTwo od0 db0) = true := by decide

/-- C6 amended: the currency resolution fails hard when zero currencies
match the order's currency code, but with one or more matches the search is
limited to one result and the first matching currency is used — multiple
matches do not fail. -/
theorem C6_currency_lookup_amended :
    (∀ (env : Env) (od : OrderData) (db : DB),
      env.channelValid = true →
      env.currencies.filter (fun x => decide (x.code = od.total.currencyID)) = [] →
      create_using_ebay_data env od db = Except.error ErpError.unpackError) ∧
    (∀ (env : Env) (od : OrderData) (db : DB) (c : CurrencyRec)
        (cs : List CurrencyRec) (sale : SaleRec) (db2 : DB) (acts : List Action),
      env.currencies.filter (fun x => decide (x.code = od.total.currencyID)) = c :: cs →
      create_using_ebay_data env od db = Except.ok (sale, db2, acts) →
      sale.currency = c.id) := by
  constructor
  · intro env od db hch hnil
    unfold create_using_ebay_data
    rw [hnil]
    simp [hch, unpackOne]
  · intro env od db c cs sale db2 acts hcur h
    obtain ⟨-, ⟨c2, cs2, hfil2, hcurr⟩, -, -, -, -, -, -, -, -⟩ :=
      create_ok_cases env od db sale db2 acts h
    rw [hcur] at hfil2
    injection hfil2 with h1 h2
    rw [h1]
    exact hcurr

/-- C6 amended witness: no matching currency fails the import with the
unpacking error; in the confirmed `od0` import the sale carries the first
(and only) matching currency. -/
theorem C6_currency_lookup_amended_witness :
    create_using_ebay_data envNone od0 db0 = Except.error ErpError.unpackError ∧
    sale0.currency = c0.id :=
  ⟨C6_currency_lookup_amended.1 envNone od0 db0 (by decide) (by decide),
   C6_currency_lookup_amended.2 env0 od0 db0 c0 [] sale0 db0'
     [Action.validateChannel, Action.quoteSale 100, Action.confirmSale 100]
     (by decide) (by decide)⟩

/-- C7: the shipping line has the fixed description, unit price the exact
decimal parse of the shipping cost when the cost mapping is present (zero
when absent — absent and a parsed zero cost coincide), note the
shipping-service label passed through (empty when absent), quantity 1 and
the resolved "Unit" UoM; and on any successful import it is the single
line appended after all item lines. -/
theorem C7_shipping_line (env : Env) (od : OrderData) (u : UomRec)
    (huom : env.uoms.filter (fun x => decide (x.name = "Unit")) = [u]) :
    (od.shippingServiceSelected.shippingServiceCost = none →
      get_shipping_line_data_using_ebay_data env od = Except.ok
        { description := "eBay Shipping and Handling", unit_price := 0
          unit := u.id, quantity := 1, product := none
          note := od.shippingServiceSelected.shippingService }) ∧
    (∀ (m : MoneyData) (q : ℚ),
      od.shippingServiceSelected.shippingServiceCost = some m →
      parseDecimalE m.value = Except.ok q →
      get_shipping_line_data_using_ebay_data env od = Except.ok
        { description := "eBay Shipping and Handling", unit_price := q
          unit := u.id, quantity := 1, product := none
          note := od.shippingServiceSelected.shippingService }) ∧
    (∀ (db : DB) (sale : SaleRec) (db2 : DB) (acts : List Action)
        (ls : List LineRec) (slr : LineRec),
      create_using_ebay_data env od db = Except.ok (sale, db2, acts) →
      get_item_line_data_using_ebay_data env od = Except.ok ls →
      get_shipping_line_data_using_ebay_data env od = Except.ok slr →
      sale.lines = ls ++ [slr]) := by
  refine ⟨?_, ?_, ?_⟩
  · intro hnone
    unfold get_shipping_line_data_using_ebay_data
    rw [huom, hnone]
    simp [unpackOne]
  · intro m q hm hq
    unfold get_shipping_line_data_using_ebay_data
    rw [huom, hm]
    simp [unpackOne, hq]
  · intro db sale db2 acts ls slr hcreate hil hsl
    obtain ⟨-, -, -, -, -, -, -, ⟨ls2, sl2, hil2, hsl2, hlines⟩, -, -⟩ :=
      create_ok_cases env od db sale db2 acts hcreate
    rw [hil2] at hil
    injection hil with h1
    rw [hsl2] at hsl
    injection hsl with h2
    rw [hlines, h1, h2]

/-- C7 witness: an absent cost mapping yields unit price zero and an empty
note; cost value "5.50" with label "Standard" yields price 5.50 and note
"Standard". -/
theorem C7_shipping_line_witness :
    get_shipping_line_data_using_ebay_data env0 odNoShip = Except.ok
      { description := "eBay Shipping and Handling", unit_price := 0
        unit := u0.id, quantity := 1, product := none
        note := odNoShip.shippingServiceSelected.shippingService } ∧
    get_shipping_line_data_using_ebay_data env0 od0 = Except.ok
      { description := "eBay Shipping and Handling", unit_price := 11 / 2
        unit := u0.id, quantity := 1, product := none
        note := od0.shippingServiceSelected.shippingService } :=
  ⟨(C7_shipping_line env0 odNoShip u0 (by decide)).1 rfl,
   (C7_shipping_line env0 od0 u0 (by decide)).2.1 ⟨"5.50", "USD"⟩ (11 / 2) rfl
     (by decide)⟩

/-- C8: a successful item-line mapping produces, in the order of the
normalized transaction sequence, one line per item whose description is the
item title, unit price the exact decimal parse of the transaction price,
quantity the exact decimal parse of the quantity purchased, unit the
resolved "Unit" UoM and product the channel's import-by-item-id result. -/
theorem C8_item_line_mapping (env : Env) (od : OrderData) (u : UomRec)
    (ls : List LineRec)
    (huom : env.uoms.filter (fun x => decide (x.name = "Unit")) = [u])
    (h : get_item_line_data_using_ebay_data env od = Except.ok ls) :
    List.Forall₂ (fun (item : TransactionData) (l : LineRec) =>
      l.description = item.item.title ∧
      parseDecimalE item.transactionPrice.value = Except.ok l.unit_price ∧
      parseDecimalE item.quantityPurchased = Except.ok l.quantity ∧
      l.unit = u.id ∧
      l.product = some (env.importProduct item.item.itemID) ∧
      l.note = none)
      (normalizeTransactions od.transactionArray) ls :=
  itemLineLoop_forall₂ env u (normalizeTransactions od.transactionArray) ls
    (get_item_line_ok env od u ls huom h)

/-- C8 witness: the one-transaction order `od0` maps to exactly `line0`. -/
theorem C8_item_line_mapping_witness :
    List.Forall₂ (fun (item : TransactionData) (l : LineRec) =>
      l.description = item.item.title ∧
      parseDecimalE item.transactionPrice.value = Except.ok l.unit_price ∧
      parseDecimalE item.quantityPurchased = Except.ok l.quantity ∧
      l.unit = u0.id ∧
      l.product = some (env0.importProduct item.item.itemID) ∧
      l.note = none)
      (normalizeTransactions od0.transactionArray) [line0] :=
  C8_item_line_mapping env0 od0 u0 [line0] (by decide) (by decide)

/-- C9: the assembled sale date is the date portion of the order's creation
timestamp with the whitespace-separated time discarded — concretely,
"2015-03-01 10:20:30" yields the date 2015-03-01 — and every successful
import's sale carries exactly the date parsed that way from its order
data. -/
theorem C9_sale_date :
    parseSaleDate "2015-03-01 10:20:30" = Except.ok ⟨2015, 3, 1⟩ ∧
    (∀ (env : Env) (od : OrderData) (db : DB) (sale : SaleRec) (db2 : DB)
        (acts : List Action),
      create_using_ebay_data env od db = Except.ok (sale, db2, acts) →
      parseSaleDate od.createdTime = Except.ok sale.sale_date) := by
  constructor
  · decide
  · intro env od db sale db2 acts h
    exact (create_ok_cases env od db sale db2 acts h).2.2.2.2.2.2.1

/-- C9 witness: the `od0` import (creation time "2015-03-01 10:20:30")
produces the sale date 2015-03-01. -/
theorem C9_sale_date_witness :
    parseSaleDate od0.createdTime = Except.ok sale0.sale_date :=
  C9_sale_date.2 env0 od0 db0 sale0 db0'
    [Action.validateChannel, Action.quoteSale 100, Action.confirmSale 100]
    (by decide)

/-- C10: an empty transaction sequence makes `create_using_ebay_data` fail
with the index error when picking the first transaction's item id — before
any sale is persisted (an error run returns no state at all) — while any
non-empty normalized transaction sequence makes that extraction succeed,
so the failure branch is unreachable under the non-emptiness
precondition. -/
theorem C10_empty_transactions :
    (∀ (env : Env) (od : OrderData) (db : DB) (c : CurrencyRec)
        (cs : List CurrencyRec),
      env.channelValid = true →
      env.currencies.filter (fun x => decide (x.code = od.total.currencyID)) = c :: cs →
      od.transactionArray = TransArray.multiple [] →
      create_using_ebay_data env od db = Except.error ErpError.indexError) ∧
    (∀ ta : TransArray, normalizeTransactions ta ≠ [] →
      ∃ t, (normalizeTransactions ta).head? = some t) := by
  constructor
  · intro env od db c cs hch hcur hempty
    unfold create_using_ebay_data
    rw [hcur, hempty]
    simp [hch, unpackOne, normalizeTransactions]
  · intro ta hne
    cases hh : normalizeTransactions ta with
    | nil => exact absurd hh hne
    | cons t ts => exact ⟨t, rfl⟩

/-- C10 witness: importing the `od0` order with an emptied transaction
sequence fails with the index error. -/
theorem C10_empty_transactions_witness :
    create_using_ebay_data env0
        { od0 with transactionArray := TransArray.multiple [] } db0 =
      Except.error ErpError.indexError :=
  C10_empty_transactions.1 env0
    { od0 with transactionArray := TransArray.multiple [] } db0 c0 []
    (by decide) (by decide) rfl

end EbaySale
